import Mathlib

/-!
Verification of the episode-identity resolution core of the animestream
addon.  The definitions below are shallow embeddings of the JavaScript
source (src/cloudflare-worker/worker-github.js and src/unnamed/part_005):
JavaScript regular expressions are embedded through a small backtracking
matcher (exactly the semantics of RegExp.prototype.exec scanning
left-to-right with greedy quantifiers and leftmost preference in
alternations), JavaScript numbers that hold integer counts are Nat or Int,
and nullable values are Option.
-/

/-! ## Character classes used by the JavaScript regexes -/

/-- The JavaScript whitespace class backslash-s:
space, tab, line terminators, NBSP, the Unicode space separators, BOM. -/
def isJsSpace (c : Char) : Bool :=
  let n := c.toNat
  n = 32 || n = 9 || n = 10 || n = 13 || n = 11 || n = 12 ||
  n = 0xA0 || n = 0x1680 || (0x2000 ≤ n && n ≤ 0x200A) ||
  n = 0x2028 || n = 0x2029 || n = 0x202F || n = 0x205F || n = 0x3000 || n = 0xFEFF

/-- ASCII decimal digit, the JavaScript class backslash-d. -/
def isDig (c : Char) : Bool :=
  48 ≤ c.toNat && c.toNat ≤ 57

/-- ASCII lower-case letter a-z. -/
def isAsciiLower (c : Char) : Bool :=
  97 ≤ c.toNat && c.toNat ≤ 122

/-- ASCII upper-case letter A-Z. -/
def isAsciiUpper (c : Char) : Bool :=
  65 ≤ c.toNat && c.toNat ≤ 90

/-- The JavaScript word class backslash-w: ASCII letters, digits, underscore. -/
def isJsWord (c : Char) : Bool :=
  isAsciiLower c || isAsciiUpper c || isDig c || c = '_'

/-- ASCII case folding: the case mapping relevant to the /i regex flag and to
toLowerCase on the ASCII titles this code handles (kana and CJK are caseless). -/
def jsLowerChar (c : Char) : Char :=
  if isAsciiUpper c then Char.ofNat (c.toNat + 32) else c

/-- Word-boundary test for backslash-b: the previous character (none at the
start of the string) and the next character (none at the end) differ in
word-character membership. -/
def atWordBoundary (prev : Option Char) (rest : List Char) : Bool :=
  let pw := match prev with
    | some c => isJsWord c
    | none => false
  let nw := match rest with
    | c :: _ => isJsWord c
    | [] => false
  pw != nw

/-! ## A small backtracking regex matcher

Constructors cover exactly the features the source regexes use:
single-character classes, concatenation, alternation (leftmost preference),
greedy star, capture groups, the end anchor, word boundaries and the
single-character negative lookahead. -/

inductive Reg where
  | eps : Reg
  | cls : (Char → Bool) → Reg
  | seq : Reg → Reg → Reg
  | alt : Reg → Reg → Reg
  | star : Reg → Reg
  | group : Nat → Reg → Reg
  | eos : Reg
  | wordB : Reg
  | nla : (Char → Bool) → Reg

/-- Captured groups: group index paired with the captured characters.
The most recent capture for an index is the first entry. -/
abbrev Caps := List (Nat × List Char)

/-- Backtracking matcher in continuation-passing style.  The continuation
receives the remaining input, the character just before it (for word
boundaries) and the captures.  The fuel bounds the recursion depth of one
match attempt; every call passes a strictly smaller fuel, and the drivers
below always supply fuel far larger than any attempt can consume, so the
fuel never influences the result on the inputs considered. -/
def matk {β : Type} (f : Nat) (r : Reg) (s : List Char) (prev : Option Char)
    (caps : Caps) (k : List Char → Option Char → Caps → Option β) : Option β :=
  match f with
  | 0 => none
  | f + 1 =>
    match r with
    | .eps => k s prev caps
    | .cls p =>
      match s with
      | [] => none
      | c :: rest => if p c then k rest (some c) caps else none
    | .seq r₁ r₂ =>
      matk f r₁ s prev caps (fun s₁ p₁ c₁ => matk f r₂ s₁ p₁ c₁ k)
    | .alt r₁ r₂ =>
      match matk f r₁ s prev caps k with
      | some v => some v
      | none => matk f r₂ s prev caps k
    | .star r₀ =>
      match matk f r₀ s prev caps (fun s₁ p₁ c₁ =>
          if s₁.length < s.length then matk f (.star r₀) s₁ p₁ c₁ k else none) with
      | some v => some v
      | none => k s prev caps
    | .group i r₀ =>
      matk f r₀ s prev caps (fun s₁ p₁ c₁ =>
        k s₁ p₁ ((i, s.take (s.length - s₁.length)) :: c₁))
    | .eos =>
      match s with
      | [] => k s prev caps
      | _ :: _ => none
    | .wordB => if atWordBoundary prev s then k s prev caps else none
    | .nla p =>
      match s with
      | [] => k s prev caps
      | c :: _ => if p c then none else k s prev caps

/-- Fuel that is ample for every pattern in this file on the given input. -/
def fuelFor (s : List Char) : Nat := 2000 + 16 * s.length

/-- Try to match the regex at the start of the input.  Returns the captures,
the remaining input and the last character the match consumed. -/
def tryAt (r : Reg) (s : List Char) (prev : Option Char) :
    Option (Caps × List Char × Option Char) :=
  matk (fuelFor s) r s prev [] (fun rem p c => some (c, rem, p))

/-- Scan left to right for the first position where the regex matches,
exactly like RegExp.prototype.exec without the global flag.  Returns the
captures of the leftmost match. -/
def searchFrom (r : Reg) (prev : Option Char) (s : List Char) : Option Caps :=
  match tryAt r s prev with
  | some (c, _, _) => some c
  | none =>
    match s with
    | [] => none
    | ch :: t => searchFrom r (some ch) t

/-- Search a string, as string.match(re) in the source. -/
def rMatch (r : Reg) (s : String) : Option Caps :=
  searchFrom r none s.toList

/-- Global replacement, as string.replace(re, repl) with the g flag:
scan left to right, replace every non-overlapping match, resume after each
match (advancing one character after an empty match, as JavaScript does).
The fuel makes the recursion structural; every step consumes at least one
input character, so fuel equal to the input length plus one is exact. -/
def replaceAllAux (f : Nat) (r : Reg) (rep : List Char) (prev : Option Char)
    (s : List Char) : List Char :=
  match f with
  | 0 => s
  | f + 1 =>
    match tryAt r s prev with
    | some (_, rem, p) =>
      if rem.length < s.length then
        rep ++ replaceAllAux f r rep p rem
      else
        match s with
        | [] => rep
        | ch :: t => rep ++ ch :: replaceAllAux f r rep (some ch) t
    | none =>
      match s with
      | [] => []
      | ch :: t => ch :: replaceAllAux f r rep (some ch) t

/-- string.replace(re, repl) with the g flag. -/
def jsReplaceAll (r : Reg) (rep : String) (s : String) : String :=
  String.mk (replaceAllAux (s.length + 1) r rep.toList none s.toList)

/-! ## Pattern construction helpers -/

/-- Character class matching a single given character. -/
def chr (c : Char) : Reg := .cls (fun x => x = c)

/-- Single character, case-insensitively (the /i flag). -/
def chrI (c : Char) : Reg := .cls (fun x => jsLowerChar x = jsLowerChar c)

/-- One of the listed characters. -/
def oneOf (l : List Char) : Reg := .cls (fun x => l.contains x)

/-- Concatenation of a list of regexes. -/
def rseq (l : List Reg) : Reg := l.foldr Reg.seq Reg.eps

/-- A regex that never matches; unit of alternation. -/
def rfail : Reg := .cls (fun _ => false)

/-- Alternation of a list, preferring earlier entries as JavaScript does. -/
def altL (l : List Reg) : Reg := l.foldr Reg.alt rfail

/-- Literal string (case sensitive). -/
def lit (w : String) : Reg := rseq (w.toList.map chr)

/-- Literal string under the /i flag. -/
def litI (w : String) : Reg := rseq (w.toList.map chrI)

/-- Greedy optional: try to consume first, as the ? quantifier. -/
def ropt (r : Reg) : Reg := .alt r .eps

/-- Greedy repetition of at most n copies. -/
def repAtMost : Nat → Reg → Reg
  | 0, _ => .eps
  | n + 1, r => .alt (.seq r (repAtMost n r)) .eps

/-- Greedy one-or-more, the + quantifier. -/
def rplus (r : Reg) : Reg := .seq r (.star r)

/-- The backslash-d class. -/
def rdig : Reg := .cls isDig

/-- Greedy repetition of between 1 and n digits-like atoms. -/
def rep1To (n : Nat) (r : Reg) : Reg := .seq r (repAtMost (n - 1) r)

/-- The backslash-s class. -/
def rsp : Reg := .cls isJsSpace

/-- Value of a captured group, as match[i] in the source.  An unset group is
none (undefined in JavaScript). -/
def capOf (caps : Caps) (i : Nat) : Option (List Char) :=
  (caps.find? (fun p => p.1 = i)).map (fun p => p.2)

/-- parseInt(digits, 10) on an all-digit capture. -/
def parseDigits (l : List Char) : Nat :=
  l.foldl (fun acc c => 10 * acc + (c.toNat - 48)) 0

/-! ## The filename episode parser: extractEpisodeInfo

Transcribed from worker-github.js lines 4134-4225.  Each pattern below is the
direct embedding of the regex literal named in its comment. -/

/-- Result record of extractEpisodeInfo. -/
structure ParsedFilenameInfo where
  episode : Option Nat
  season : Option Nat
  isBatch : Bool
  batchRange : Option (Nat × Nat)
deriving DecidableEq, Repr

/-- Batch pattern 1, bracketed numeric range. -/
def batchPat1 : Reg :=
  rseq [oneOf ['[', '('], .group 1 (rep1To 3 rdig), .star rsp, oneOf ['-', '~'],
        .star rsp, .group 2 (rep1To 3 rdig), oneOf [']', ')']]

/-- Batch pattern 2, dash range followed by a completion keyword. -/
def batchPat2 : Reg :=
  rseq [.wordB, .group 1 (rep1To 3 rdig), .star rsp, oneOf ['-', '~'],
        .star rsp, .group 2 (rep1To 3 rdig), .star rsp,
        altL [litI "END", litI "Complete", litI "Batch", litI "Fin"], .wordB]

/-- Batch pattern 3, explicit batch keywords. -/
def batchPat3 : Reg :=
  rseq [.wordB,
        altL [litI "Complete", litI "Batch", lit "全话",
              rseq [litI "Season", .star rsp, litI "Pack"]],
        .wordB]

/-- Batch pattern 4, volume releases and BD box sets. -/
def batchPat4 : Reg :=
  rseq [.wordB,
        altL [rseq [litI "Vol", ropt (litI "ume"), ropt (chr '.'), .star rsp,
                    rplus rdig, .star rsp, oneOf ['-', '~'], .star rsp, rplus rdig],
              rseq [litI "BD", .star rsp, litI "Box"]],
        .wordB]

/-- Pattern 1, the S01E05 western marker with optional version suffix. -/
def sxePat : Reg :=
  rseq [.wordB, chrI 'S', ropt (chr '0'), .group 1 (rep1To 2 rdig), .star rsp,
        chrI 'E', ropt (chr '0'), .group 2 (rep1To 4 rdig),
        ropt (rseq [chrI 'v', rplus rdig]), .nla isDig]

/-- Pattern 2, the anime dash-episode marker bounded by space, bracket or end. -/
def dashEpPat : Reg :=
  rseq [rsp, chr '-', rsp, ropt (chr '0'), .group 1 (rep1To 4 rdig),
        ropt (rseq [chr 'v', rplus rdig]),
        altL [rsp, chr '(', chr '[', .eos]]

/-- Pattern 3, worded episode markers such as Episode 05, Ep.05, E05. -/
def epWordPat : Reg :=
  rseq [.wordB, chrI 'E', ropt (.seq (chrI 'p') (ropt (litI "isode"))),
        ropt (chr '.'), .star rsp, ropt (chr '0'), .group 1 (rep1To 4 rdig),
        ropt (rseq [chrI 'v', rplus rdig]), .nla isDig]

/-- Pattern 4, a bracketed bare number. -/
def bracketEpPat : Reg :=
  rseq [oneOf ['[', '('], ropt (chr '0'), .group 1 (rep1To 3 rdig),
        ropt (rseq [chr 'v', rplus rdig]), oneOf [']', ')']]

/-- Pattern 5, a number delimited by dots or underscores. -/
def sepEpPat : Reg :=
  rseq [oneOf ['.', '_'], ropt (chr '0'), .group 1 (rep1To 3 rdig),
        ropt (rseq [chr 'v', rplus rdig]), oneOf ['.', '_']]

/-- Pattern 6, Japanese episode markers. -/
def jpEpPat : Reg :=
  rseq [altL [chr '#', chr '第'], ropt (chr '0'), .group 1 (rep1To 4 rdig),
        ropt (altL [chr '話', chr '回', rseq [chr 'v', rplus rdig]])]

/-- The batch-detection loop: try the four batch patterns in order and stop
at the first that matches, returning its captures. -/
def batchScan (n : List Char) : Option Caps :=
  match searchFrom batchPat1 none n with
  | some c => some c
  | none =>
    match searchFrom batchPat2 none n with
    | some c => some c
    | none =>
      match searchFrom batchPat3 none n with
      | some c => some c
      | none => searchFrom batchPat4 none n

/-- Episode number from a capture of the given pattern match. -/
def epFromCap (caps : Caps) (i : Nat) : Option Nat :=
  (capOf caps i).map parseDigits

/-- Lowest tier of the single-episode cascade: the Japanese marker. -/
def jpStage (n : List Char) : ParsedFilenameInfo :=
  match searchFrom jpEpPat none n with
  | some caps => ⟨epFromCap caps 1, none, false, none⟩
  | none => ⟨none, none, false, none⟩

/-- Separator-delimited number, accepted only for values in (0, 500);
otherwise fall through to the Japanese marker. -/
def sepStage (n : List Char) : ParsedFilenameInfo :=
  match searchFrom sepEpPat none n with
  | some caps =>
    let num := parseDigits ((capOf caps 1).getD [])
    if num < 500 && 0 < num then ⟨some num, none, false, none⟩ else jpStage n
  | none => jpStage n

/-- Bracketed bare number, accepted only for values in (0, 1000);
otherwise fall through. -/
def bracketStage (n : List Char) : ParsedFilenameInfo :=
  match searchFrom bracketEpPat none n with
  | some caps =>
    let num := parseDigits ((capOf caps 1).getD [])
    if num < 1000 && 0 < num then ⟨some num, none, false, none⟩ else sepStage n
  | none => sepStage n

/-- The ordered single-episode cascade of extractEpisodeInfo, applied when no
batch pattern matched. -/
def singleEpScan (n : List Char) : ParsedFilenameInfo :=
  match searchFrom sxePat none n with
  | some caps => ⟨epFromCap caps 2, epFromCap caps 1, false, none⟩
  | none =>
    match searchFrom dashEpPat none n with
    | some caps => ⟨epFromCap caps 1, none, false, none⟩
    | none =>
      match searchFrom epWordPat none n with
      | some caps => ⟨epFromCap caps 1, none, false, none⟩
      | none => bracketStage n

/-- extractEpisodeInfo from worker-github.js lines 4134-4225: falsy titles
give the empty result, whitespace runs are collapsed, the four batch
patterns are tried first (an isBatch result never carries an episode), then
the single-episode cascade runs from most to least specific. -/
def extractEpisodeInfo (title : String) : ParsedFilenameInfo :=
  if title.isEmpty then ⟨none, none, false, none⟩
  else
    let normalized := (jsReplaceAll (rplus rsp) " " title).toList
    match batchScan normalized with
    | some caps =>
      let range :=
        match capOf caps 1, capOf caps 2 with
        | some g1, some g2 =>
          let start := parseDigits g1
          let stop := parseDigits g2
          if start < stop && stop - start < 100 then some (start, stop) else none
        | _, _ => none
      ⟨none, none, true, range⟩
    | none => singleEpScan normalized

/-- The public interface also receives null or undefined titles; both are
falsy, like the empty string. -/
def extractEpisodeInfoOpt (title : Option String) : ParsedFilenameInfo :=
  match title with
  | none => ⟨none, none, false, none⟩
  | some t => extractEpisodeInfo t

/-! ## Torrent-episode validation: validateTorrentEpisode

Transcribed from worker-github.js lines 4234-4269. -/

/-- Result of validateTorrentEpisode: the match verdict and its reason.
The source field named matches is a reserved word in Lean and is embedded
as isMatch. -/
structure ValidationResult where
  isMatch : Bool
  reason : String
deriving DecidableEq, Repr

/-- validateTorrentEpisode: batches with a known range match exactly when the
requested episode lies inside it, batches with unknown range always match,
otherwise strict single-episode matching with a season check. -/
def validateTorrentEpisode (title : String) (requestedEpisode : Nat)
    (requestedSeason : Nat) : ValidationResult :=
  let info := extractEpisodeInfo title
  if info.isBatch then
    match info.batchRange with
    | some (start, stop) =>
      if start ≤ requestedEpisode && requestedEpisode ≤ stop then
        ⟨true, "batch_contains_episode"⟩
      else
        ⟨false, "batch_episode_out_of_range"⟩
    | none => ⟨true, "batch_unknown_range"⟩
  else
    match info.episode with
    | none => ⟨false, "no_episode_detected"⟩
    | some ep =>
      match info.season with
      | some s =>
        if s ≠ requestedSeason then ⟨false, "season_mismatch"⟩
        else if ep = requestedEpisode then ⟨true, "exact_match"⟩
        else ⟨false, "episode_mismatch"⟩
      | none =>
        if ep = requestedEpisode then ⟨true, "exact_match"⟩
        else ⟨false, "episode_mismatch"⟩

/-! ## The torrent file disambiguator

Transcribed from the candidate-selection block of resolveRealDebrid
(worker-github.js lines 5012-5043); getAllDebridFiles (lines 5413-5452)
contains the same logic.  The block runs when an episode is requested and
the torrent holds several video files; when it selects nothing the
surrounding resolver separately applies its own index/largest-file
fallback, which the specification assigns to the caller. -/

/-- A file inside a multi-file torrent. -/
structure TorrentFileCandidate where
  path : String
  bytes : Nat
deriving DecidableEq, Repr

/-- The denylist of non-episode content markers, the regex
(NCOP|NCED|Preview|Special|SP[^a-z]|OVA|Menu|Trailer|PV|CM|Bonus) with /i. -/
def denyPat : Reg :=
  altL [litI "NCOP", litI "NCED", litI "Preview", litI "Special",
        rseq [chrI 'S', chrI 'P',
              .cls (fun c => !(isAsciiLower c || isAsciiUpper c))],
        litI "OVA", litI "Menu", litI "Trailer", litI "PV", litI "CM",
        litI "Bonus"]

/-- Denylist test applied to each file path before parsing. -/
def deniedFile (path : String) : Bool :=
  (rMatch denyPat path).isSome

/-- file.path.split('/').pop(): the final path segment. -/
def baseName (s : String) : String :=
  String.mk (s.toList.foldl (fun acc c => if c = '/' then [] else acc ++ [c]) [])

/-- One iteration of the candidate loop: a file survives when it is not
denylisted, its parsed episode equals the requested one, and its parsed
season, when present, equals the requested one. -/
def fileSurvives (season episode : Nat) (f : TorrentFileCandidate) : Bool :=
  if deniedFile f.path then false
  else
    let info := extractEpisodeInfo (baseName f.path)
    match info.episode with
    | some ep =>
      if ep = episode then
        match info.season with
        | some s => s = season
        | none => true
      else false
    | none => false

/-- The surviving candidates, in file order. -/
def survivors (files : List TorrentFileCandidate) (season episode : Nat) :
    List TorrentFileCandidate :=
  files.filter (fileSurvives season episode)

/-- One comparison step of the stable descending sort by bytes: keep the
earlier candidate unless the new one is strictly larger. -/
def stepMax (acc : Option TorrentFileCandidate) (f : TorrentFileCandidate) :
    Option TorrentFileCandidate :=
  match acc with
  | none => some f
  | some g => if f.bytes > g.bytes then some f else some g

/-- First maximum by size: the head of a stable descending sort by bytes,
as candidates.sort((a, b) => b.file.bytes - a.file.bytes)[0]. -/
def pickLargest (l : List TorrentFileCandidate) : Option TorrentFileCandidate :=
  l.foldl stepMax none

/-- The disambiguator: none when no candidate survives, otherwise the
largest survivor by size. -/
def selectFile (files : List TorrentFileCandidate) (season episode : Nat) :
    Option TorrentFileCandidate :=
  pickLargest (survivors files season episode)

/-! ## The absolute-episode mapper: convertToAbsoluteEpisode

Transcribed from worker-github.js lines 1773-1800 together with the
EPISODE_SEASON_MAPPINGS table (lines 1573-1772).  The JavaScript function
closes over the module-level table; here the table is an explicit first
argument, instantiated with the embedded table. -/

/-- One season row of the table; the source field named end is a reserved
word in Lean and is embedded as stop. -/
structure SeasonRange where
  season : Int
  start : Int
  stop : Int
deriving DecidableEq, Repr

/-- Per-series mapping value. -/
structure SeasonMapping where
  seasons : List SeasonRange
  totalSeasons : Int
deriving DecidableEq, Repr

/-- Object-property lookup on the mappings table. -/
def lookupMapping (table : List (String × SeasonMapping)) (imdbId : String) :
    Option SeasonMapping :=
  (table.find? (fun p => p.1 = imdbId)).map (fun p => p.2)

/-- convertToAbsoluteEpisode: identity without a table entry or season row,
otherwise start + (episode - 1) capped at the row's end. -/
def convertToAbsoluteEpisode (table : List (String × SeasonMapping))
    (imdbId : String) (season episode : Int) : Int :=
  match lookupMapping table imdbId with
  | none => episode
  | some mapping =>
    match mapping.seasons.find? (fun s => s.season = season) with
    | none => episode
    | some seasonData =>
      let absoluteEpisode := seasonData.start + (episode - 1)
      if absoluteEpisode > seasonData.stop then seasonData.stop
      else absoluteEpisode

/-- The EPISODE_SEASON_MAPPINGS table, worker-github.js lines 1573-1772. -/
def EPISODE_SEASON_MAPPINGS : List (String × SeasonMapping) := [
  ("tt0388629", ⟨[
    ⟨1, 1, 8⟩, ⟨2, 9, 30⟩, ⟨3, 31, 47⟩, ⟨4, 48, 60⟩, ⟨5, 61, 69⟩,
    ⟨6, 70, 91⟩, ⟨7, 92, 130⟩, ⟨8, 131, 143⟩, ⟨9, 144, 195⟩,
    ⟨10, 196, 226⟩, ⟨11, 227, 325⟩, ⟨12, 326, 381⟩, ⟨13, 382, 481⟩,
    ⟨14, 482, 516⟩, ⟨15, 517, 578⟩, ⟨16, 579, 627⟩, ⟨17, 628, 745⟩,
    ⟨18, 746, 778⟩, ⟨19, 779, 877⟩, ⟨20, 878, 891⟩, ⟨21, 892, 1085⟩,
    ⟨22, 1086, 1155⟩, ⟨23, 1156, 9999⟩], 23⟩),
  ("tt0214341", ⟨[
    ⟨1, 1, 39⟩, ⟨2, 40, 74⟩, ⟨3, 75, 107⟩, ⟨4, 108, 139⟩, ⟨5, 140, 165⟩,
    ⟨6, 166, 194⟩, ⟨7, 195, 219⟩, ⟨8, 220, 253⟩, ⟨9, 254, 291⟩], 9⟩),
  ("tt0409591", ⟨[
    ⟨1, 1, 35⟩, ⟨2, 36, 83⟩, ⟨3, 84, 131⟩, ⟨4, 132, 179⟩, ⟨5, 180, 220⟩], 5⟩),
  ("tt0988824", ⟨[
    ⟨1, 1, 32⟩, ⟨2, 33, 53⟩, ⟨3, 54, 71⟩, ⟨4, 72, 88⟩, ⟨5, 89, 112⟩,
    ⟨6, 113, 143⟩, ⟨7, 144, 151⟩, ⟨8, 152, 175⟩, ⟨9, 176, 196⟩,
    ⟨10, 197, 222⟩, ⟨11, 223, 242⟩, ⟨12, 243, 260⟩, ⟨13, 261, 295⟩,
    ⟨14, 296, 320⟩, ⟨15, 321, 348⟩, ⟨16, 349, 361⟩, ⟨17, 362, 393⟩,
    ⟨18, 394, 413⟩, ⟨19, 414, 431⟩, ⟨20, 432, 450⟩, ⟨21, 451, 458⟩,
    ⟨22, 459, 500⟩], 22⟩),
  ("tt0434665", ⟨[
    ⟨1, 1, 20⟩, ⟨2, 21, 41⟩, ⟨3, 42, 63⟩, ⟨4, 64, 91⟩, ⟨5, 92, 109⟩,
    ⟨6, 110, 131⟩, ⟨7, 132, 151⟩, ⟨8, 152, 167⟩, ⟨9, 168, 189⟩,
    ⟨10, 190, 205⟩, ⟨11, 206, 212⟩, ⟨12, 213, 229⟩, ⟨13, 230, 265⟩,
    ⟨14, 266, 316⟩, ⟨15, 317, 342⟩, ⟨16, 343, 366⟩, ⟨17, 367, 390⟩,
    ⟨18, 391, 9999⟩], 18⟩),
  ("tt1528406", ⟨[
    ⟨1, 1, 48⟩, ⟨2, 49, 96⟩, ⟨3, 97, 150⟩, ⟨4, 151, 175⟩, ⟨5, 176, 226⟩,
    ⟨6, 227, 265⟩, ⟨7, 266, 277⟩, ⟨8, 278, 328⟩], 8⟩),
  ("tt2098220", ⟨[⟨1, 1, 58⟩, ⟨2, 59, 136⟩, ⟨3, 137, 148⟩], 3⟩),
  ("tt4644488", ⟨[
    ⟨1, 1, 14⟩, ⟨2, 15, 27⟩, ⟨3, 28, 46⟩, ⟨4, 47, 76⟩, ⟨5, 77, 131⟩], 5⟩),
  ("tt0131179", ⟨[⟨1, 1, 999999⟩], 1⟩),
  ("tt6342474", ⟨[⟨1, 1, 293⟩], 1⟩)]

/-! ## The fuzzy matcher: levenshteinDistance and stringSimilarity

Transcribed from worker-github.js lines 3551-3582.  The source fills the
classic dynamic-programming table dp with dp[i][j] equal to the minimum of
dp[i-1][j] + 1, dp[i][j-1] + 1 and dp[i-1][j-1] + cost; the function below
is the direct recursive reading of that recurrence (the table entry for a
pair of prefixes equals the distance of the remaining suffixes computed
from the front), with the same base rows and columns. -/

/-- levenshteinDistance on character sequences. -/
def levenshteinDistance (s t : List Char) : Nat :=
  match s, t with
  | [], _ => t.length
  | _, [] => s.length
  | x :: xs, y :: ys =>
    min (levenshteinDistance xs (y :: ys) + 1)
      (min (levenshteinDistance (x :: xs) ys + 1)
        (levenshteinDistance xs ys + (if x = y then 0 else 1)))
termination_by s.length + t.length
decreasing_by
  all_goals simp [List.length_cons]
  all_goals omega

/-- stringSimilarity: 100 for two empty strings, otherwise the normalized
edit-distance score ((maxLen - distance) / maxLen) * 100, where maxLen is
Math.max(str1.length, str2.length) and distance the Levenshtein distance.
The JavaScript number arithmetic on these values is modeled as exact
rational arithmetic. -/
def stringSimilarity (a b : String) : ℚ :=
  if max a.length b.length = 0 then 100
  else
    ((max a.length b.length : ℚ) - (levenshteinDistance a.toList b.toList : ℚ)) /
      (max a.length b.length : ℚ) * 100

/-! ## The fuzzy-search tier of the show-identity resolver

Transcribed from findAllAnimeShow, worker-github.js lines 3694-3754: the
decision taken over the already-fetched search results, after the alias
tier.  Numeric crosswalk ids are Option Nat (null when not supplied; MAL
and AniList ids are positive, so JavaScript truthiness equals presence). -/

/-- A search result row, the fields findAllAnimeShow reads.  The source
field named type is a reserved word in Lean and is embedded as showType. -/
structure AAShow where
  id : String
  title : Option String
  nativeTitle : Option String
  malId : Option Nat
  aniListId : Option Nat
  showType : Option String
deriving DecidableEq, Repr

/-- title.toLowerCase().replace(/[^a-z0-9]/g, ''). -/
def normalizeForSearch (s : String) : String :=
  String.mk ((s.toList.map jsLowerChar).filter (fun c => isAsciiLower c || isDig c))

/-- The id-match predicate
(malId && r.malId === malId) || (aniListId && r.aniListId === aniListId). -/
def idMatchB (malId aniListId : Option Nat) (r : AAShow) : Bool :=
  (match malId with
   | some m => r.malId = some m
   | none => false) ||
  (match aniListId with
   | some a => r.aniListId = some a
   | none => false)

/-- Whether the needle occurs at the very start of the haystack. -/
def leadsWith : List Char → List Char → Bool
  | [], _ => true
  | _ :: _, [] => false
  | a :: as, b :: bs => a = b && leadsWith as bs

/-- String.prototype.includes: the needle occurs somewhere in the haystack. -/
def occursIn (needle : List Char) : List Char → Bool
  | [] => needle.isEmpty
  | c :: t => leadsWith needle (c :: t) || occursIn needle t

/-- The score of one search result against the normalized query: 100 for an
exact normalized-title match, 80 for substring containment either way,
otherwise 0.9 times the best similarity against primary and native titles;
plus the media-type bonus. -/
def scoreShow (nst : String) (r : AAShow) : ℚ :=
  let showName := normalizeForSearch (r.title.getD "")
  let nativeTitle := normalizeForSearch (r.nativeTitle.getD "")
  let base : ℚ :=
    if showName = nst then 100
    else if occursIn nst.toList showName.toList || occursIn showName.toList nst.toList then 80
    else max (stringSimilarity nst showName) (stringSimilarity nst nativeTitle) * (9 / 10)
  base + (if r.showType = some "TV" then 3 else 0) +
    (if r.showType = some "Movie" then 2 else 0)

/-- The best-candidate loop: keep the first result whose score strictly
exceeds the best so far, starting from a null best with score 0. -/
def bestShow (nst : String) (results : List AAShow) : Option AAShow × ℚ :=
  results.foldl (fun acc r =>
    let sc := scoreShow nst r
    if sc > acc.2 then (some r, sc) else acc) (none, 0)

/-- The decision of the fuzzy-search tier: empty results give null; a result
matching a supplied crosswalk id is accepted immediately; otherwise the
best-scoring result is accepted exactly when its score reaches the
threshold, 75 when ids were supplied and 60 otherwise. -/
def fuzzySearchDecision (results : List AAShow) (title : String)
    (malId aniListId : Option Nat) : Option String :=
  if results.isEmpty then none
  else
    let idRes :=
      if malId.isSome || aniListId.isSome then
        results.find? (idMatchB malId aniListId)
      else none
    match idRes with
    | some r => some r.id
    | none =>
      let nst := normalizeForSearch title
      let best := bestShow nst results
      let threshold : ℚ := if malId.isSome || aniListId.isSome then 75 else 60
      match best.1 with
      | some b => if best.2 ≥ threshold then some b.id else none
      | none => none

/-! ## The title normalizer: normalizeTitle

Transcribed from src/unnamed/part_005 lines 121-149, stage by stage in
source order.  The NFD normalization step is modeled as the identity
followed by the removal of combining marks U+0300 to U+036F: every
precomposed character outside ASCII, kana and CJK has already been removed
by the preceding character-class filter, and kana decomposition is not
modeled (the titles considered here contain none). -/

/-- The characters kept by the filter [^\w\s぀-ゟ゠-ヿ一-龯-]. -/
def keptByCharFilter (c : Char) : Bool :=
  isJsWord c || isJsSpace c ||
  (0x3040 ≤ c.toNat && c.toNat ≤ 0x309F) ||
  (0x30A0 ≤ c.toNat && c.toNat ≤ 0x30FF) ||
  (0x4E00 ≤ c.toNat && c.toNat ≤ 0x9FAF) ||
  c = '-'

/-- toLowerCase (ASCII case mapping, see jsLowerChar). -/
def jsLower (s : String) : String := String.mk (s.toList.map jsLowerChar)

/-- String.prototype.trim. -/
def jsTrim (s : String) : String :=
  String.mk (((s.toList.dropWhile isJsSpace).reverse.dropWhile isJsSpace).reverse)

/-- The suffix rule /\s+(the\s+)?(animation|animated|anime|ova|ona|movie|film|special|tv|series)s?$/gi. -/
def sufFormatPat : Reg :=
  rseq [rplus rsp, ropt (.group 1 (rseq [litI "the", rplus rsp])),
        .group 2 (altL [litI "animation", litI "animated", litI "anime",
                        litI "ova", litI "ona", litI "movie", litI "film",
                        litI "special", litI "tv", litI "series"]),
        ropt (chrI 's'), .eos]

/-- The suffix rule /\s+(season|part|cour|chapter|arc)\s*\d*$/gi. -/
def sufSeasonPat : Reg :=
  rseq [rplus rsp,
        .group 1 (altL [litI "season", litI "part", litI "cour",
                        litI "chapter", litI "arc"]),
        .star rsp, .star rdig, .eos]

/-- The suffix rule /\s+(1st|2nd|3rd|\d+th)\s+(season|part|cour)$/gi. -/
def sufOrdinalPat : Reg :=
  rseq [rplus rsp,
        .group 1 (altL [litI "1st", litI "2nd", litI "3rd",
                        rseq [rplus rdig, litI "th"]]),
        rplus rsp,
        .group 2 (altL [litI "season", litI "part", litI "cour"]), .eos]

/-- The suffix rule /\s+[ivx]+$/gi. -/
def sufRomanPat : Reg :=
  rseq [rplus rsp, rplus (.cls (fun c => jsLowerChar c = 'i' ||
        jsLowerChar c = 'v' || jsLowerChar c = 'x')), .eos]

/-- normalizeTitle from part_005: lower-case, trim, strip parenthesized and
bracketed segments, map CJK punctuation to spaces, keep only word, space,
kana, CJK and dash characters, strip combining marks, collapse the vowel
digraphs ou uu aa ii ee, strip format and season suffixes and season or
episode markers, drop the stop-words and, the, a, collapse whitespace and
dashes, and trim. -/
def normalizeTitle (title : String) : String :=
  if title.isEmpty then ""
  else
    let s := jsTrim (jsLower title)
    let s := jsReplaceAll (rseq [chr '(', .star (.cls (fun c => c ≠ ')')), chr ')']) "" s
    let s := jsReplaceAll (rseq [chr '[', .star (.cls (fun c => c ≠ ']')), chr ']']) "" s
    let s := jsReplaceAll (oneOf ['：', '・', '「', '」', '『', '』', '【', '】',
                                  '〈', '〉', '《', '》', '（', '）']) " " s
    let s := jsReplaceAll (.cls (fun c => !keptByCharFilter c)) "" s
    let s := jsReplaceAll (.cls (fun c => 0x300 ≤ c.toNat && c.toNat ≤ 0x36F)) "" s
    let s := jsReplaceAll (lit "ou") "o" s
    let s := jsReplaceAll (lit "uu") "u" s
    let s := jsReplaceAll (lit "aa") "a" s
    let s := jsReplaceAll (lit "ii") "i" s
    let s := jsReplaceAll (lit "ee") "e" s
    let s := jsReplaceAll sufFormatPat "" s
    let s := jsReplaceAll sufSeasonPat "" s
    let s := jsReplaceAll sufOrdinalPat "" s
    let s := jsReplaceAll sufRomanPat "" s
    let s := jsReplaceAll (rseq [.star rsp, chrI 's', rplus rdig, .star rsp]) " " s
    let s := jsReplaceAll (rseq [.star rsp, litI "ep", ropt (chr '.'),
                                 .star rsp, rplus rdig]) "" s
    let s := jsReplaceAll (rseq [.wordB, lit "and", .wordB]) "" s
    let s := jsReplaceAll (rseq [.wordB, lit "the", .wordB]) "" s
    let s := jsReplaceAll (rseq [.wordB, lit "a", .wordB]) "" s
    let s := jsReplaceAll (rplus rsp) " " s
    let s := jsReplaceAll (rplus (chr '-')) " " s
    jsTrim s

/-! ## Helper lemmas -/

/-- The Japanese-marker stage never reports a batch. -/
theorem jpStage_isBatch (n : List Char) : (jpStage n).isBatch = false := by
  unfold jpStage
  split <;> rfl

/-- The separator stage never reports a batch. -/
theorem sepStage_isBatch (n : List Char) : (sepStage n).isBatch = false := by
  unfold sepStage
  split
  · dsimp only
    split
    · rfl
    · exact jpStage_isBatch n
  · exact jpStage_isBatch n

/-- The bracket stage never reports a batch. -/
theorem bracketStage_isBatch (n : List Char) : (bracketStage n).isBatch = false := by
  unfold bracketStage
  split
  · dsimp only
    split
    · rfl
    · exact sepStage_isBatch n
  · exact sepStage_isBatch n

/-- The single-episode cascade never reports a batch. -/
theorem singleEpScan_isBatch (n : List Char) : (singleEpScan n).isBatch = false := by
  unfold singleEpScan
  split
  · rfl
  · split
    · rfl
    · split
      · rfl
      · exact bracketStage_isBatch n

/-- Unfolding stepMax on an empty accumulator. -/
theorem stepMax_none_eq (f : TorrentFileCandidate) : stepMax none f = some f := rfl

/-- Unfolding stepMax on a non-empty accumulator. -/
theorem stepMax_some_eq (g f : TorrentFileCandidate) :
    stepMax (some g) f = if f.bytes > g.bytes then some f else some g := rfl

/-- A stepMax result dominates its new candidate and is the candidate or the
previous accumulator. -/
theorem stepMax_cases (acc : Option TorrentFileCandidate)
    (f g : TorrentFileCandidate) (hg : stepMax acc f = some g) :
    f.bytes ≤ g.bytes ∧ (g = f ∨ acc = some g) := by
  cases acc with
  | none =>
    rw [stepMax_none_eq] at hg
    cases hg
    exact ⟨Nat.le_refl _, Or.inl rfl⟩
  | some g₀ =>
    rw [stepMax_some_eq] at hg
    by_cases hb : f.bytes > g₀.bytes
    · rw [if_pos hb] at hg
      cases hg
      exact ⟨Nat.le_refl _, Or.inl rfl⟩
    · rw [if_neg hb] at hg
      cases hg
      exact ⟨Nat.le_of_not_lt hb, Or.inr rfl⟩

/-- A stepMax result dominates the previous accumulator. -/
theorem stepMax_dominates (acc : Option TorrentFileCandidate)
    (f g g₀ : TorrentFileCandidate) (hg : stepMax acc f = some g)
    (ha : acc = some g₀) : g₀.bytes ≤ g.bytes := by
  subst ha
  rw [stepMax_some_eq] at hg
  by_cases hb : f.bytes > g₀.bytes
  · rw [if_pos hb] at hg
    cases hg
    exact Nat.le_of_lt hb
  · rw [if_neg hb] at hg
    cases hg
    exact Nat.le_refl _

/-- stepMax never empties the accumulator. -/
theorem stepMax_isSome (acc : Option TorrentFileCandidate) (f : TorrentFileCandidate) :
    (stepMax acc f).isSome = true := by
  cases acc with
  | none => rfl
  | some g =>
    rw [stepMax_some_eq]
    by_cases hb : f.bytes > g.bytes
    · rw [if_pos hb]; rfl
    · rw [if_neg hb]; rfl

/-- Folding stepMax from a non-empty accumulator yields a value. -/
theorem pickLargest_foldl_isSome (l : List TorrentFileCandidate)
    (a : TorrentFileCandidate) :
    (l.foldl stepMax (some a)).isSome = true := by
  induction l generalizing a with
  | nil => rfl
  | cons x xs ih =>
    rw [List.foldl_cons, stepMax_some_eq]
    by_cases hb : x.bytes > a.bytes
    · rw [if_pos hb]; exact ih x
    · rw [if_neg hb]; exact ih a

/-- What the stepMax fold guarantees: the result comes from the list or the
accumulator and dominates both in size. -/
theorem pickLargest_foldl_spec (l : List TorrentFileCandidate) :
    ∀ (acc : Option TorrentFileCandidate) (f : TorrentFileCandidate),
    l.foldl stepMax acc = some f →
    (f ∈ l ∨ acc = some f) ∧ (∀ g ∈ l, g.bytes ≤ f.bytes) ∧
      (∀ g, acc = some g → g.bytes ≤ f.bytes) := by
  induction l with
  | nil =>
    intro acc f h
    simp only [List.foldl_nil] at h
    refine ⟨Or.inr h, by simp, fun g hg => ?_⟩
    rw [hg] at h
    cases h
    exact Nat.le_refl _
  | cons x xs ih =>
    intro acc f h
    rw [List.foldl_cons] at h
    obtain ⟨hmem, hall, hacc⟩ := ih _ f h
    have hsome : ∃ v, stepMax acc x = some v := by
      have hs := stepMax_isSome acc x
      cases hv : stepMax acc x with
      | none => rw [hv] at hs; cases hs
      | some v => exact ⟨v, rfl⟩
    obtain ⟨v, hv⟩ := hsome
    refine ⟨?_, ?_, ?_⟩
    · rcases hmem with hf | hf
      · exact Or.inl (List.mem_cons_of_mem _ hf)
      · rcases (stepMax_cases acc x f hf).2 with rfl | ha
        · exact Or.inl (List.mem_cons_self _ _)
        · exact Or.inr ha
    · intro g hg
      rcases List.mem_cons.mp hg with rfl | hg'
      · have h1 := (stepMax_cases acc g v hv).1
        have h2 := hacc v hv
        omega
      · exact hall g hg'
    · intro g hg
      have h1 := stepMax_dominates acc x v g hv hg
      have h2 := hacc v hv
      omega

/-- The distance from a string to the empty string is its length. -/
theorem lev_nil_right (s : List Char) : levenshteinDistance s [] = s.length := by
  cases s <;> simp [levenshteinDistance]

/-- The distance of a string to itself is zero. -/
theorem lev_self (s : List Char) : levenshteinDistance s s = 0 := by
  induction s with
  | nil => simp [levenshteinDistance]
  | cons x xs ih =>
    rw [levenshteinDistance, ih]
    simp

/-- The Levenshtein distance is symmetric. -/
theorem lev_comm (s : List Char) :
    ∀ t, levenshteinDistance s t = levenshteinDistance t s := by
  induction s with
  | nil =>
    intro t
    rw [lev_nil_right]
    cases t <;> simp [levenshteinDistance]
  | cons x xs ihx =>
    intro t
    induction t with
    | nil => rw [lev_nil_right]; simp [levenshteinDistance]
    | cons y ys ihy =>
      rw [levenshteinDistance]
      conv_rhs => rw [levenshteinDistance]
      rw [ihx (y :: ys), ihx ys, ← ihy]
      have hc : (if x = y then 0 else 1) = (if y = x then 0 else 1) := by
        simp [eq_comm]
      rw [hc]
      omega

/-- The Levenshtein distance is at most the longer length. -/
theorem lev_le_max (s : List Char) :
    ∀ t, levenshteinDistance s t ≤ max s.length t.length := by
  induction s with
  | nil =>
    intro t
    simp [levenshteinDistance]
  | cons x xs ihx =>
    intro t
    cases t with
    | nil => rw [lev_nil_right]; simp
    | cons y ys =>
      rw [levenshteinDistance]
      have h := ihx ys
      have hc : (if x = y then 0 else 1) ≤ 1 := by split <;> omega
      simp only [List.length_cons]
      omega

/-! ## Claim theorems -/

/-- C6: the fuzzy matcher satisfies similarity(s, s) = 100 for every string
including the empty one, 0 <= similarity(a, b) <= 100 for all strings, and
similarity is symmetric. -/
theorem stringSimilarity_props :
    (∀ s : String, stringSimilarity s s = 100) ∧
    (∀ a b : String, 0 ≤ stringSimilarity a b ∧ stringSimilarity a b ≤ 100) ∧
    (∀ a b : String, stringSimilarity a b = stringSimilarity b a) := by
  refine ⟨?_, ?_, ?_⟩
  · intro s
    unfold stringSimilarity
    by_cases h : max s.length s.length = 0
    · rw [if_pos h]
    · rw [if_neg h, lev_self]
      have hs : ((s.length : ℚ)) ≠ 0 := by
        rw [max_self] at h
        exact_mod_cast h
      simp [max_self, div_self hs]
  · intro a b
    unfold stringSimilarity
    by_cases h : max a.length b.length = 0
    · rw [if_pos h]
      norm_num
    · rw [if_neg h, ← Nat.cast_max]
      have hm : (0 : ℚ) < ((max a.length b.length : Nat) : ℚ) := by
        exact_mod_cast Nat.pos_of_ne_zero h
      have hd : ((levenshteinDistance a.toList b.toList : Nat) : ℚ) ≤
          ((max a.length b.length : Nat) : ℚ) := by
        have hle := lev_le_max a.toList b.toList
        have hlen : max a.toList.length b.toList.length = max a.length b.length := rfl
        rw [hlen] at hle
        exact_mod_cast hle
      constructor
      · exact mul_nonneg (div_nonneg (by linarith) (le_of_lt hm)) (by norm_num)
      · rw [div_mul_eq_mul_div, div_le_iff₀ hm]
        linarith
  · intro a b
    unfold stringSimilarity
    rw [Nat.max_comm a.length b.length, lev_comm a.toList b.toList,
      max_comm ((a.length : ℚ)) ((b.length : ℚ))]

/-- C3: any filename matching a batch pattern yields isBatch = true with a
null episode, and in every parser result isBatch = true implies
episode = null. -/
theorem extractEpisodeInfo_batch_precedence :
    ∀ title : String,
      ((extractEpisodeInfo title).isBatch = true →
        (extractEpisodeInfo title).episode = none) ∧
      (title.isEmpty = false →
        batchScan (jsReplaceAll (rplus rsp) " " title).toList ≠ none →
        (extractEpisodeInfo title).isBatch = true ∧
          (extractEpisodeInfo title).episode = none) := by
  intro title
  unfold extractEpisodeInfo
  by_cases he : title.isEmpty = true
  · rw [if_pos he]
    constructor
    · intro h
      cases h
    · intro h1 _
      rw [he] at h1
      cases h1
  · rw [if_neg he]
    dsimp only
    constructor
    · intro h
      split at h
      · rfl
      · rw [singleEpScan_isBatch] at h
        cases h
    · intro _ hne
      split
      · exact ⟨rfl, rfl⟩
      · next heq => exact absurd heq hne

/-- C3 witness: the spec's example, a batch filename that superficially
contains a leading number, is parsed as a batch with no episode. -/
theorem extractEpisodeInfo_batch_precedence_witness :
    (extractEpisodeInfo "[01-12] Show - Complete").episode = none ∧
    (extractEpisodeInfo "[01-12] Show - Complete").isBatch = true :=
  ⟨(extractEpisodeInfo_batch_precedence "[01-12] Show - Complete").1 (by decide),
   by decide⟩

/-- C7: the three concrete parser scenarios of the specification. -/
theorem extractEpisodeInfo_concrete_scenarios :
    extractEpisodeInfo "[SubsPlease] Frieren - 05 (1080p).mkv" =
      ⟨some 5, none, false, none⟩ ∧
    extractEpisodeInfo "[Group] Show S02E03 (WEB 1080p).mkv" =
      ⟨some 3, some 2, false, none⟩ ∧
    extractEpisodeInfo "[Group] Show [01-12][BD 1080p] Batch" =
      ⟨none, none, true, some (1, 12)⟩ :=
  ⟨by decide, by decide, by decide⟩

/-- C9: for a batch with a known range, validateTorrentEpisode matches
exactly when the requested episode lies in the range; a batch with unknown
range always matches. -/
theorem validateTorrentEpisode_batch_spec :
    ∀ (title : String) (requestedEpisode requestedSeason start stop : Nat),
      (extractEpisodeInfo title).isBatch = true →
      (((extractEpisodeInfo title).batchRange = some (start, stop) →
        ((validateTorrentEpisode title requestedEpisode requestedSeason).isMatch = true ↔
          start ≤ requestedEpisode ∧ requestedEpisode ≤ stop)) ∧
       ((extractEpisodeInfo title).batchRange = none →
        (validateTorrentEpisode title requestedEpisode requestedSeason).isMatch = true)) := by
  intro title e s start stop hb
  constructor
  · intro hr
    unfold validateTorrentEpisode
    dsimp only
    rw [if_pos hb, hr]
    dsimp only
    by_cases hc : (start ≤ e && e ≤ stop) = true
    · rw [if_pos hc]
      simp only [Bool.and_eq_true, decide_eq_true_eq] at hc
      simp [hc]
    · rw [if_neg hc]
      simp only [Bool.and_eq_true, decide_eq_true_eq, not_and] at hc
      simp only [Bool.false_eq_true, false_iff, not_and]
      intro h1 h2
      exact absurd h2 (by simpa using hc h1)
  · intro hr
    unfold validateTorrentEpisode
    dsimp only
    rw [if_pos hb, hr]

/-- C9 witness: a batch release with range 01 to 12 matches a request for
episode 5 of season 1. -/
theorem validateTorrentEpisode_batch_spec_witness :
    (validateTorrentEpisode "[Group] Show [01-12][BD 1080p] Batch" 5 1).isMatch = true :=
  ((validateTorrentEpisode_batch_spec "[Group] Show [01-12][BD 1080p] Batch"
    5 1 1 12 (by decide)).1 (by decide)).mpr (by decide)

/-- C10: the parser is total at its public interface: null, undefined and
empty titles give the all-null non-batch record, and every string input
yields a result value. -/
theorem extractEpisodeInfo_totality :
    extractEpisodeInfoOpt none = ⟨none, none, false, none⟩ ∧
    extractEpisodeInfoOpt (some "") = ⟨none, none, false, none⟩ ∧
    ∀ t : String, ∃ r : ParsedFilenameInfo, extractEpisodeInfoOpt (some t) = r :=
  ⟨rfl, rfl, fun _ => ⟨_, rfl⟩⟩

/-- C1: with zero surviving files the disambiguator reports no confident
match (none), and any file it does return is a survivor of the denylist and
episode filtering, never an index-based or first-file fallback. -/
theorem selectFile_no_confident_match :
    ∀ files season episode,
      (survivors files season episode = [] →
        selectFile files season episode = none) ∧
      (∀ f, selectFile files season episode = some f →
        f ∈ survivors files season episode) := by
  intro files season episode
  constructor
  · intro h
    unfold selectFile pickLargest
    rw [h]
    rfl
  · intro f h
    unfold selectFile pickLargest at h
    obtain ⟨hmem, -, -⟩ := pickLargest_foldl_spec _ _ _ h
    rcases hmem with hm | hm
    · exact hm
    · cases hm

/-- C1 witness: a file list whose only entries are denylisted or lack the
requested episode yields no survivors, and the disambiguator returns none. -/
theorem selectFile_no_confident_match_witness :
    survivors [⟨"Show - NCOP.mkv", 50000000⟩, ⟨"Show - 07 (1080p).mkv", 700000000⟩] 1 5 = [] ∧
    selectFile [⟨"Show - NCOP.mkv", 50000000⟩, ⟨"Show - 07 (1080p).mkv", 700000000⟩] 1 5 = none :=
  ⟨by decide,
   (selectFile_no_confident_match
     [⟨"Show - NCOP.mkv", 50000000⟩, ⟨"Show - 07 (1080p).mkv", 700000000⟩] 1 5).1 (by decide)⟩

/-- C2 counterexample: on the spec's exact file list the parser extracts no
episode from the name Show - 05.mkv (the number is followed directly by
.mkv, which the dash pattern rejects), so the disambiguator returns none
rather than the 400MB episode-5 file the claim promises. -/
theorem selectFile_spec_scenario_fails :
    selectFile [⟨"Show - 05.mkv", 400000000⟩, ⟨"Show - 06.mkv", 900000000⟩,
                ⟨"Show - NCOP.mkv", 50000000⟩] 1 5 = none ∧
    selectFile [⟨"Show - 05.mkv", 400000000⟩, ⟨"Show - 06.mkv", 900000000⟩,
                ⟨"Show - NCOP.mkv", 50000000⟩] 1 5 ≠
      some ⟨"Show - 05.mkv", 400000000⟩ :=
  ⟨by decide, by decide⟩

/-- C2 amended: with filenames the dash pattern accepts (a separator after
the number) the disambiguator picks the episode-5 file and the NCOP file is
excluded pre-filter regardless of size; in general any selected file is a
survivor that is largest by size among the survivors, and some file is
selected whenever a survivor exists. -/
theorem selectFile_largest_matching_spec :
    (selectFile [⟨"Show - 05 (1080p).mkv", 400000000⟩,
                 ⟨"Show - 06 (1080p).mkv", 900000000⟩,
                 ⟨"Show - NCOP.mkv", 50000000⟩] 1 5 =
       some ⟨"Show - 05 (1080p).mkv", 400000000⟩) ∧
    (∀ files season episode f, selectFile files season episode = some f →
       f ∈ survivors files season episode ∧
         ∀ g ∈ survivors files season episode, g.bytes ≤ f.bytes) ∧
    (∀ files season episode, survivors files season episode ≠ [] →
       (selectFile files season episode).isSome = true) := by
  refine ⟨by decide, ?_, ?_⟩
  · intro files season episode f h
    unfold selectFile pickLargest at h
    obtain ⟨hmem, hall, -⟩ := pickLargest_foldl_spec _ _ _ h
    rcases hmem with hm | hm
    · exact ⟨hm, hall⟩
    · cases hm
  · intro files season episode hne
    unfold selectFile pickLargest
    cases hs : survivors files season episode with
    | nil => exact absurd hs hne
    | cons x xs =>
      rw [List.foldl_cons, stepMax_none_eq]
      exact pickLargest_foldl_isSome xs x

/-- C2 witness: the selected episode-5 file is a survivor and no survivor is
larger. -/
theorem selectFile_largest_matching_spec_witness :
    (⟨"Show - 05 (1080p).mkv", 400000000⟩ : TorrentFileCandidate) ∈
      survivors [⟨"Show - 05 (1080p).mkv", 400000000⟩,
                 ⟨"Show - 06 (1080p).mkv", 900000000⟩,
                 ⟨"Show - NCOP.mkv", 50000000⟩] 1 5 ∧
    ∀ g ∈ survivors [⟨"Show - 05 (1080p).mkv", 400000000⟩,
                     ⟨"Show - 06 (1080p).mkv", 900000000⟩,
                     ⟨"Show - NCOP.mkv", 50000000⟩] 1 5,
      g.bytes ≤ (⟨"Show - 05 (1080p).mkv", 400000000⟩ : TorrentFileCandidate).bytes :=
  selectFile_largest_matching_spec.2.1
    [⟨"Show - 05 (1080p).mkv", 400000000⟩,
     ⟨"Show - 06 (1080p).mkv", 900000000⟩,
     ⟨"Show - NCOP.mkv", 50000000⟩] 1 5
    ⟨"Show - 05 (1080p).mkv", 400000000⟩ (by decide)

/-- C4: the absolute-episode mapper is the identity without a table entry or
season row, otherwise start + (episode - 1) clamped to the row's end, with
the spec's two concrete season-21 scenarios. -/
theorem convertToAbsoluteEpisode_spec :
    (∀ table imdbId season episode, lookupMapping table imdbId = none →
      convertToAbsoluteEpisode table imdbId season episode = episode) ∧
    (∀ table imdbId season episode m, lookupMapping table imdbId = some m →
      m.seasons.find? (fun s => s.season = season) = none →
      convertToAbsoluteEpisode table imdbId season episode = episode) ∧
    (∀ table imdbId season episode m r, lookupMapping table imdbId = some m →
      m.seasons.find? (fun s => s.season = season) = some r →
      convertToAbsoluteEpisode table imdbId season episode =
        if r.start + (episode - 1) > r.stop then r.stop
        else r.start + (episode - 1)) ∧
    convertToAbsoluteEpisode EPISODE_SEASON_MAPPINGS "tt0388629" 21 1 = 892 ∧
    convertToAbsoluteEpisode EPISODE_SEASON_MAPPINGS "tt0388629" 21 300 = 1085 := by
  refine ⟨?_, ?_, ?_, by decide, by decide⟩
  · intro table imdbId season episode h
    unfold convertToAbsoluteEpisode
    rw [h]
  · intro table imdbId season episode m h1 h2
    unfold convertToAbsoluteEpisode
    rw [h1]
    dsimp only
    rw [h2]
  · intro table imdbId season episode m r h1 h2
    unfold convertToAbsoluteEpisode
    rw [h1]
    dsimp only
    rw [h2]

/-- C4 witness: a series id outside the table maps identically. -/
theorem convertToAbsoluteEpisode_spec_witness :
    convertToAbsoluteEpisode EPISODE_SEASON_MAPPINGS "tt9999999" 3 7 = 7 :=
  convertToAbsoluteEpisode_spec.1 EPISODE_SEASON_MAPPINGS "tt9999999" 3 7 (by decide)

/-- C5: in the fuzzy-search tier a candidate matching a supplied crosswalk
id is accepted immediately regardless of title score, and when no candidate
id-matches the best-scoring candidate is accepted exactly when its score
reaches the threshold, 75 with supplied ids and 60 without; below it the
tier returns null. -/
theorem fuzzyTier_spec :
    ∀ (results : List AAShow) (title : String) (malId aniListId : Option Nat),
      ((malId.isSome || aniListId.isSome) = true →
        ∀ r, results.find? (idMatchB malId aniListId) = some r →
          fuzzySearchDecision results title malId aniListId = some r.id) ∧
      ((∀ r ∈ results, idMatchB malId aniListId r = false) →
        ∀ b sc, bestShow (normalizeForSearch title) results = (some b, sc) →
          fuzzySearchDecision results title malId aniListId =
            if sc ≥ (if (malId.isSome || aniListId.isSome) = true then (75 : ℚ) else 60)
            then some b.id else none) := by
  intro results title malId aniListId
  constructor
  · intro hids r hr
    have hne : results ≠ [] := by
      intro h
      subst h
      cases hr
    have hie : results.isEmpty = false := by
      cases results with
      | nil => exact absurd rfl hne
      | cons x xs => rfl
    unfold fuzzySearchDecision
    rw [if_neg (by rw [hie]; simp)]
    dsimp only
    rw [if_pos hids, hr]
  · intro hall b sc hbest
    have hfind : results.find? (idMatchB malId aniListId) = none := by
      apply List.find?_eq_none.mpr
      intro x hx hpx
      rw [hall x hx] at hpx
      cases hpx
    have hne : results ≠ [] := by
      intro h
      subst h
      simp [bestShow] at hbest
    have hie : results.isEmpty = false := by
      cases results with
      | nil => exact absurd rfl hne
      | cons x xs => rfl
    unfold fuzzySearchDecision
    rw [if_neg (by rw [hie]; simp)]
    dsimp only
    by_cases hids : (malId.isSome || aniListId.isSome) = true
    · rw [if_pos hids, hfind, hbest, if_pos hids]
    · rw [if_neg hids, hbest, if_neg hids]

/-- C5 witness: a single TV result whose MAL id equals the supplied one is
accepted immediately. -/
theorem fuzzyTier_spec_witness :
    fuzzySearchDecision [⟨"show123", some "Naruto", none, some 20, none, some "TV"⟩]
      "naruto" (some 20) none = some "show123" :=
  (fuzzyTier_spec [⟨"show123", some "Naruto", none, some 20, none, some "TV"⟩]
    "naruto" (some 20) none).1 (by decide)
    ⟨"show123", some "Naruto", none, some 20, none, some "TV"⟩ (by decide)

/-- C8 counterexample: the normalizer is not idempotent; normalizing ouu
gives ou and normalizing again gives o. -/
theorem normalizeTitle_not_idempotent :
    normalizeTitle (normalizeTitle "ouu") ≠ normalizeTitle "ouu" := by decide

/-- C8 amended: idempotence fails in general, since a second application can
collapse vowel digraphs exposed by the first pass; the normalizer does map
the empty string to itself, and any title it leaves unchanged stays
unchanged under repeated normalization. -/
theorem normalizeTitle_idempotent_amended :
    (∃ s : String, normalizeTitle (normalizeTitle s) ≠ normalizeTitle s) ∧
    normalizeTitle "" = "" ∧
    (∀ s : String, normalizeTitle s = s →
      normalizeTitle (normalizeTitle s) = normalizeTitle s) :=
  ⟨⟨"ouu", by decide⟩, rfl, fun s h => by rw [h]; exact h⟩

/-- C8 witness: a title that is already in normal form. -/
theorem normalizeTitle_idempotent_amended_witness :
    normalizeTitle (normalizeTitle "frieren") = normalizeTitle "frieren" :=
  normalizeTitle_idempotent_amended.2.2 "frieren" (by decide)
